import Mathlib

/-!
# django-crowdsourcing: verification of the view layer

A shallow embedding of `crowdsourcing/views.py` and `crowdsourcing/admin.py`.

The repository is Django glue code.  The surveys, submissions and requests are
embedded as plain structures; the database-backed predicates that live in the
(absent) `models.py` — `Survey.is_open`, `Survey.can_have_public_submissions()`,
`survey.submissions_for(...).count()` — appear as boolean inputs, so every
theorem quantifies over all behaviours those methods could have.  The branching
logic of the views themselves is translated line by line from `views.py`.
-/

namespace Crowdsourcing

/-! ## Python string primitives used by the views -/

/-- The characters Python's `str.strip()` removes (Python 2 `string.whitespace`). -/
def isPySpace (c : Char) : Bool :=
  c = ' ' || c = '\t' || c = '\n' || c = '\x0d' || c = '\x0b' || c = '\x0c'

/-- Python's `s.strip()`: drop leading and trailing whitespace. -/
def pyStrip (s : String) : String :=
  String.mk (((s.data.dropWhile isPySpace).reverse.dropWhile isPySpace).reverse)

/-- Split a character list at every comma; the result always has one group
per comma plus one, so it is never empty. -/
def splitCharsOnComma : List Char → List (List Char)
  | [] => [[]]
  | c :: rest =>
      let r := splitCharsOnComma rest
      if c = ',' then [] :: r
      else (c :: r.headD []) :: r.tail

/-- Python's `s.split(',')` (`''.split(',') == ['']`). -/
def pySplitComma (s : String) : List String :=
  (splitCharsOnComma s.data).map String.mk

/-- Python list/queryset slicing `l[start:stop]` for non-negative indices:
the elements at positions `start ≤ i < stop`. -/
def pySlice {α : Type} (l : List α) (start stop : Nat) : List α :=
  (l.take stop).drop start

/-- Truthiness of an optional string value pulled out of a request-parameter
dict (`if v:` in Python): present and non-empty. -/
def pyTruthyStr : Option String → Bool
  | some s => s ≠ ""
  | none => false

/-- The numeric value of a decimal digit, if `c` is one. -/
def digitVal (c : Char) : Option Nat :=
  if 48 ≤ c.toNat && c.toNat ≤ 57 then some (c.toNat - 48) else none

/-- Python `int(s)` for non-negative decimal strings (no sign, no spaces). -/
def parseDecimal (s : String) : Option Nat :=
  match s.data with
  | [] => none
  | cs => cs.foldl (fun acc c =>
      match acc, digitVal c with
      | some n, some d => some (n * 10 + d)
      | _, _ => none) (some 0)

/-! ## Data model -/

/-- The survey configuration the views consult.  `is_open` and
`can_have_public_submissions` are database-backed methods of the (absent)
`models.py`; they enter the embedding as opaque boolean results.
`numQuestions` is the size of `survey.questions.all()`. -/
structure Survey where
  is_open : Bool
  require_login : Bool
  allow_multiple_submissions : Bool
  moderate_submissions : Bool
  can_have_public_submissions : Bool
  numQuestions : Nat
  deriving DecidableEq, Repr

/-- The fields of a `Submission` row that `_survey_submit` assigns. -/
structure Submission where
  is_public : Bool
  ip_address : String
  user : Option Nat
  deriving DecidableEq, Repr

inductive Method where
  | get
  | post
  deriving DecidableEq, Repr

/-- The incoming request, restricted to what the views read.
`user = some uid` means `request.user.is_authenticated()`.
`entered` is the result of `survey.submissions_for(request.user,
request.session.session_key.lower()).count() > 0` for the survey at hand.
`formsValid` is `all(form.is_valid() for form in forms)` for the posted data. -/
structure Request where
  method : Method
  user : Option Nat
  hasSession : Bool
  entered : Bool
  formsValid : Bool
  xForwardedFor : Option String
  remoteAddr : String
  deriving DecidableEq, Repr

def Request.isAuthenticated (r : Request) : Bool :=
  r.user.isSome

/-- Responses the detail/submit views can produce.  `showForm n` is a render of
the `survey_detail` template with `n` forms handed to it (`n = 0` embeds the
empty tuple `()` the view passes when it refuses to show the entry form);
`alreadySubmitted` is the `already_submitted.html` render. -/
inductive Response where
  | showForm (numForms : Nat)
  | alreadySubmitted
  | resultsRedirect (thanks : Bool)
  | loginRedirect
  | forbidden
  deriving DecidableEq, Repr

/-! ## views.py: helpers and the entry/submit views -/

/-- Embeds `_user_entered_survey` (views.py 14-17), abstracted to the boolean the
database query returns. -/
def user_entered_survey (r : Request) : Bool :=
  r.entered

/-- Embeds `_user_too_many_entries` (views.py 20-23). -/
def user_too_many_entries (r : Request) (s : Survey) : Bool :=
  !s.allow_multiple_submissions && user_entered_survey r

/-- Embeds `_get_remote_ip` (views.py 26-30): if `HTTP_X_FORWARDED_FOR` is present and
truthy, the last comma-separated piece, stripped; else `REMOTE_ADDR`. -/
def get_remote_ip (xForwardedFor : Option String) (remoteAddr : String) : String :=
  match xForwardedFor with
  | some forwarded =>
      if forwarded ≠ "" then pyStrip ((pySplitComma forwarded).getLastD "")
      else remoteAddr
  | none => remoteAddr

/-- Embeds `forms_for_survey` (in the absent `forms.py`): one `SubmissionForm`
followed by one form per question.  Only the count matters to the views. -/
def forms_for_survey (s : Survey) : Nat :=
  s.numQuestions + 1

/-- Embeds `_survey_submit` (views.py 54-94).  Returns the response together with the
`Submission` row saved, if any.  Answer rows are not modelled: no claim
inspects them. -/
def survey_submit (r : Request) (s : Survey) : Response × Option Submission :=
  if s.require_login && !r.isAuthenticated then
    (.loginRedirect, none)
  else if !r.hasSession then
    (.forbidden, none)
  else if user_too_many_entries r s then
    (.alreadySubmitted, none)
  else if r.formsValid then
    let submission : Submission :=
      { is_public := !s.moderate_submissions
        ip_address := get_remote_ip r.xForwardedFor r.remoteAddr
        user := r.user }
    if s.can_have_public_submissions then
      (.resultsRedirect true, some submission)
    else
      (.showForm 0, some submission)
  else
    (.showForm (forms_for_survey s), none)

/-- Embeds `_can_show_form` (views.py 109-114). -/
def can_show_form (r : Request) (s : Survey) : Bool :=
  s.is_open && (r.isAuthenticated || !s.require_login)
    && !user_too_many_entries r s

/-- Embeds `survey_detail` (views.py 117-134), after `_get_survey_or_404` succeeded. -/
def survey_detail (r : Request) (s : Survey) : Response × Option Submission :=
  if !s.is_open && s.can_have_public_submissions then
    (.resultsRedirect false, none)
  else
    let need_login := s.is_open && s.require_login && !r.isAuthenticated
    if can_show_form r s then
      if r.method = .post then
        survey_submit r s
      else
        (.showForm (forms_for_survey s), none)
    else if need_login then
      (.showForm 0, none)
    else if s.can_have_public_submissions then
      (.resultsRedirect false, none)
    else
      (.showForm 0, none)

/-! ## views.py: aggregation (`aggregate_results`, views.py 181-190) -/

/-- One row of
`question.answer_set.values('text_answer').annotate(count=Count("id"))`
per distinct `text_answer` (the SQL `GROUP BY` keeps a `NULL` group, and
`Count("id")` counts every row of the group).  The argument is the
`text_answer` column of the question's answer set, `none` embedding `NULL`.
`List.dedup` supplies the distinct group keys. -/
def aggregate_counts (answers : List (Option String)) :
    List (Option String × Nat) :=
  answers.dedup.map (fun v => (v, answers.count v))

/-- The number of answers whose `text_answer` is non-null — the quantity the
spec says the aggregate counts sum to. -/
def nonNullAnswerCount (answers : List (Option String)) : Nat :=
  (answers.filter Option.isSome).length

/-! ## views.py: `survey_results_json` (views.py 193-226) and
`_filter_submissions` (views.py 33-41) -/

/-- A submission as the json/report endpoints filter it: the mapping from
fieldname to the submission's answer for that field, which is what a keyword
filter `qs.filter(fieldname=value)` compares against. -/
structure JsonSubmission where
  answers : List (String × String)
  deriving DecidableEq, Repr

/-- Django `qs.filter(**filters)` keeps a submission iff each keyword pair matches
its answer for that field. -/
def submissionMatches (answers : List (String × String))
    (filters : List (String × String)) : Bool :=
  filters.all (fun kv => answers.lookup kv.1 = some kv.2)

/-- Python `d.pop(k, default)` on a request-parameter dict embedded as an association
list with distinct keys: the looked-up value (if any) and the dict without the
key. -/
def dictPop (vars : List (String × String)) (k : String) :
    Option String × List (String × String) :=
  (vars.lookup k, vars.filter (fun kv => kv.1 ≠ k))

/-- The five parameter names `survey_results_json` pops before using the rest
as filters. -/
def reservedJsonParams : List String :=
  ["limit", "offset", "order", "countonly", "callback"]

/-- The observable outcome of `survey_results_json`: the keyword filters it
passed to `qs.filter`, the filtered queryset, the `count` it reports, and the
result page `qs[offset:limit]` (`none` when `countonly` was truthy).  The
JSONP `callback` wrapper only changes the serialization, not these values. -/
structure JsonOutput where
  appliedFilters : List (String × String)
  filtered : List JsonSubmission
  count : Nat
  page : Option (List JsonSubmission)
  deriving DecidableEq, Repr

/-- Embeds `survey_results_json` (views.py 193-226) on the public submissions of a
found survey.  `params` is the GET (or POST) dict.  Two charitable readings,
each marked where it applies: the Python code never converts the `limit` and
`offset` strings to integers before slicing (we parse them with default 30
and 0, as the int defaults suggest), and `order_by` is delegated to the
database (we keep the queryset order).  The slice `qs[offset:limit]` is
translated exactly as written. -/
def survey_results_json (params : List (String × String))
    (publicSubs : List JsonSubmission) : JsonOutput :=
  let p1 := dictPop params "limit"
  let p2 := dictPop p1.2 "offset"
  let p3 := dictPop p2.2 "order"
  let p4 := dictPop p3.2 "countonly"
  let p5 := dictPop p4.2 "callback"
  let vars := p5.2
  let limit := (p1.1.bind parseDecimal).getD 30
  let offset := (p2.1.bind parseDecimal).getD 0
  let qs :=
    if vars ≠ [] then
      publicSubs.filter (fun sub => submissionMatches sub.answers vars)
    else publicSubs
  let cnt := qs.length
  if pyTruthyStr p4.1 then
    { appliedFilters := vars, filtered := qs, count := cnt, page := none }
  else
    { appliedFilters := vars, filtered := qs, count := cnt
      page := some (pySlice qs offset limit) }

/-- A survey as `_filter_submissions` would need it: `get_filters()` returns
the questions declared filterable; only their fieldnames are read. -/
structure FilterSurvey where
  filters : List String
  deriving DecidableEq, Repr

/-- The names bound at module level in `views.py`: its imports (including the
names it uses from the `djview` star import: `settings`, `reverse`,
`get_object_or_404`, `get_int_or_404`, `paginate_or_404`, `Http404`,
`HttpResponse`, `HttpResponseRedirect`, `render_with_request`) and its own
defs.  No binding named `survey` exists. -/
def viewsModuleNames : List String :=
  ["httplib", "logging", "Count", "dump", "dumps", "forms_for_survey",
   "Survey", "Submission", "Answer",
   "settings", "reverse", "get_object_or_404", "get_int_or_404",
   "paginate_or_404", "Http404", "HttpResponse", "HttpResponseRedirect",
   "render_with_request",
   "_user_entered_survey", "_user_too_many_entries", "_get_remote_ip",
   "_filter_submissions", "_login_url", "_get_survey_or_404",
   "_survey_submit", "_survey_show_form", "_can_show_form", "survey_detail",
   "_survey_results_redirect", "can_enter", "allowed_actions",
   "_survey_questions_api", "questions", "aggregate_results",
   "survey_results_json", "survey_results_map", "survey_results_archive",
   "survey_results_aggregate", "survey_report"]

/-- The parameters of `_filter_submissions` (views.py 33). -/
def filterSubmissionsParams : List String :=
  ["requestdata", "submissions"]

/-- Embeds `_filter_submissions` (views.py 33-41).  Its body iterates
`survey.get_filters()`, but `survey` is neither of its two parameters and is
not bound at module level, so Python raises `NameError` as soon as the `for`
loop draws from the generator — before `requestdata` is consulted.
`resolvedSurvey` is the result of resolving the free name `survey`; in
`views.py` it is `none` (see `filter_submissions_views`).  The `some` branch
translates the loop body: a filter is added for each declared filterable
fieldname whose request value is truthy. -/
def filter_submissions (resolvedSurvey : Option FilterSurvey)
    (requestdata : List (String × String))
    (submissions : List JsonSubmission) :
    Except String (List JsonSubmission) :=
  match resolvedSurvey with
  | none => .error "NameError: name 'survey' is not defined"
  | some survey =>
      let qs_filters := survey.filters.filterMap (fun fld =>
        match requestdata.lookup fld with
        | some v => if v ≠ "" then some (fld, v) else none
        | none => none)
      if qs_filters ≠ [] then
        .ok (submissions.filter
          (fun sub => submissionMatches sub.answers qs_filters))
      else
        .ok submissions

/-- Runs `_filter_submissions` as `views.py` actually runs it: the name `survey`
resolves to nothing. -/
def filter_submissions_views (requestdata : List (String × String))
    (submissions : List JsonSubmission) :
    Except String (List JsonSubmission) :=
  filter_submissions none requestdata submissions

/-! ## views.py: `survey_report` (views.py 282-316) -/

/-- The database state `survey_report` consults for one `(slug, site)` pair:
whether a live survey with that slug exists, its public-submission policy,
the slugs of its `surveyreport_set`, and its public submissions. -/
structure ReportState where
  surveyExists : Bool
  canHavePublicSubmissions : Bool
  reportSlugs : List String
  publicSubs : List JsonSubmission
  deriving DecidableEq, Repr

/-- Outcomes of `survey_report`: a 404, a render of the report template, or an
uncaught Python exception (surfacing as a server error). -/
inductive ReportResponse where
  | notFound
  | rendered (theReport : Option String) (page : Nat)
  | serverError (msg : String)
  deriving DecidableEq, Repr

/-- Modelled from the spec: `paginate_or_404` lives in the external `djview`
helpers, absent from the source; the spec says a page out of range surfaces as
"not found".  Pages are 1-based windows of `perPage` items. -/
def paginate_or_404 {α : Type} (items : List α) (page : Nat) (perPage : Nat) :
    Except Unit (List α) :=
  if page = 0 then .error ()
  else
    let window := pySlice items ((page - 1) * perPage) (page * perPage)
    if window.isEmpty && page ≠ 1 then .error ()
    else .ok window

/-- A logical source line of a Python module reduced to what the parser's
block-structure rules consult: its first physical line number, its
indentation, and whether it is a compound-statement header (ends with a
colon, so the grammar demands an indented suite next). -/
structure PyLine where
  lineNo : Nat
  indent : Nat
  opensBlock : Bool
  deriving DecidableEq, Repr

/-- The logical statement lines of `def survey_report` (views.py 282-316),
transcribed from the source: continuation lines of a multi-line call or
list belong to the logical line they continue, the docstring on lines
283-285 is one expression statement, and blank lines and the comment on
line 290 are invisible to the indentation rules.  Line 304 is the header
`if report == '' and len(reports) == 1:` at 12 spaces, and line 305 is
`the_report = reports[0]`, also at 12 spaces. -/
def surveyReportStmtLines : List PyLine :=
  [⟨282, 0, true⟩,
   ⟨283, 4, false⟩,
   ⟨286, 4, false⟩,
   ⟨287, 4, false⟩,
   ⟨291, 4, true⟩,
   ⟨292, 8, false⟩,
   ⟨294, 4, false⟩,
   ⟨296, 4, false⟩,
   ⟨297, 4, false⟩,
   ⟨298, 4, true⟩,
   ⟨299, 8, false⟩,
   ⟨300, 4, true⟩,
   ⟨301, 8, true⟩,
   ⟨302, 12, false⟩,
   ⟨303, 8, true⟩,
   ⟨304, 12, true⟩,
   ⟨305, 12, false⟩,
   ⟨306, 4, false⟩,
   ⟨309, 4, false⟩]

/-- The first pair of consecutive logical lines violating the block rule of
Python's grammar that a compound-statement header must be followed by a
strictly more indented suite — the rule whose violation CPython reports as
`IndentationError: expected an indented block`.  Returns the two line
numbers, or `none` when the rule holds throughout. -/
def firstIndentationViolation : List PyLine → Option (Nat × Nat)
  | l1 :: l2 :: rest =>
      if l1.opensBlock && !(l1.indent < l2.indent) then
        some (l1.lineNo, l2.lineNo)
      else firstIndentationViolation (l2 :: rest)
  | _ => none

/-- Does the block satisfy the header-must-be-followed-by-indented-suite
rule?  This is a necessary condition for the module to compile, so `false`
means Python rejects the file at import time, before any view runs. -/
def pythonIndentationOk (lines : List PyLine) : Bool :=
  (firstIndentationViolation lines).isNone

/-- Statement-level reading of views.py 282-316 UNDER THE COUNTERFACTUAL
that the file parsed (it does not: see `surveyReportStmtLines`); it is dead
code behind the parse guard in `survey_report` and records what the module
would do after the obvious indentation repair.  Here `page = none` embeds
the URL without a page component (`page = 1 if page is None else ...`); the
URL pattern only admits digits, so the page arrives as a number.  After the
survey and its public-submission policy are checked, the view calls
`_filter_submissions(request.GET, survey.public_submissions())`, which
raises `NameError` (see `filter_submissions`); the remaining lines record a
second uncaught error: resolving an unknown report slug evaluates
`except SurveyReport.DoesNotExist`, and `SurveyReport` is never imported by
`views.py`, so `NameError` again. -/
def survey_report_if_parsed (st : ReportState) (params : List (String × String))
    (reportSlug : String) (page : Option Nat) : ReportResponse :=
  let pageN := page.getD 1
  if !st.surveyExists then .notFound
  else if !st.canHavePublicSubmissions then .notFound
  else
    match filter_submissions_views params st.publicSubs with
    | .error e => .serverError e
    | .ok submissions =>
        match paginate_or_404 submissions pageN 20 with
        | .error _ => .notFound
        | .ok _ =>
            if st.reportSlugs = [] then .rendered none pageN
            else if reportSlug ∈ st.reportSlugs then
              .rendered (some reportSlug) pageN
            else .serverError "NameError: name 'SurveyReport' is not defined"

/-- Embeds `survey_report` (views.py 282-316) at request level.  Python
compiles the whole of `views.py` when the module is imported, and the parser
rejects it: line 305 sits at the same indentation as the `if ...:` header on
line 304 (`surveyReportStmtLines`), so the import raises `IndentationError`
and NO request is ever served by any view of the module — in particular none
receives a 404 from this function.  The guard computes that fact from the
transcribed source lines; the would-be semantics behind it never runs. -/
def survey_report (st : ReportState) (params : List (String × String))
    (reportSlug : String) (page : Option Nat) : ReportResponse :=
  if pythonIndentationOk surveyReportStmtLines then
    survey_report_if_parsed st params reportSlug page
  else
    .serverError "IndentationError: expected an indented block (views.py line 305)"

/-! ## admin.py: `QuestionForm.clean_fieldname` (admin.py 20-24) -/

/-- The character class `[a-zA-Z]`. -/
def isAsciiLetter (c : Char) : Bool :=
  (97 ≤ c.toNat && c.toNat ≤ 122) || (65 ≤ c.toNat && c.toNat ≤ 90)

/-- The character class `[0-9]`. -/
def isAsciiDigit (c : Char) : Bool :=
  48 ≤ c.toNat && c.toNat ≤ 57

/-- The character class `[a-zA-Z0-9_]`. -/
def isFieldnameChar (c : Char) : Bool :=
  isAsciiLetter c || isAsciiDigit c || c = '_'

/-- Python `re.match(r'^[a-zA-Z][a-zA-Z0-9_]*$', s)` as a boolean, for inputs without
a trailing newline (`clean_fieldname` strips first, so Python's
newline-tolerant `$` is a plain end anchor here). -/
def matchesFieldnamePattern (s : String) : Bool :=
  match s.data with
  | [] => false
  | c :: cs => isAsciiLetter c && cs.all isFieldnameChar

/-- Embeds `QuestionForm.clean_fieldname` (admin.py 20-24): strip the submitted
value, validate it against the pattern, return the stripped value. -/
def clean_fieldname (s : String) : Except String String :=
  let fieldname := pyStrip s
  if matchesFieldnamePattern fieldname then .ok fieldname
  else .error "ValidationError"

/-! ## Theorems -/

/-- Every `Submission` row `_survey_submit` saves carries exactly the field
values assigned on views.py lines 72-77. -/
lemma survey_submit_saved_submission (r : Request) (s : Survey)
    (sub : Submission) (h : (survey_submit r s).2 = some sub) :
    sub = { is_public := !s.moderate_submissions
            ip_address := get_remote_ip r.xForwardedFor r.remoteAddr
            user := r.user } := by
  simp only [survey_submit] at h
  split at h
  · simp at h
  · split at h
    · simp at h
    · split at h
      · simp at h
      · split at h
        · split at h <;> exact (Option.some_inj.mp h).symm
        · simp at h

/-- Lemma: `survey_detail` only ever saves a submission by delegating to
`_survey_submit`. -/
lemma survey_detail_snd_eq_submit (r : Request) (s : Survey)
    (sub : Submission) (h : (survey_detail r s).2 = some sub) :
    (survey_submit r s).2 = some sub := by
  simp only [survey_detail] at h
  split at h
  · simp at h
  · split at h
    · split at h
      · exact h
      · simp at h
    · split at h
      · simp at h
      · split at h <;> simp at h

/-- C1: every `Submission` row created by `_survey_submit` (directly or via
`survey_detail`) has `is_public` equal to the negation of the survey's
`moderate_submissions` flag; in particular a submission to a moderated survey
is saved with `is_public == false`. -/
theorem submission_public_iff_not_moderated :
    (∀ (r : Request) (s : Survey) (sub : Submission),
        (survey_submit r s).2 = some sub →
          sub.is_public = !s.moderate_submissions) ∧
    (∀ (r : Request) (s : Survey) (sub : Submission),
        (survey_detail r s).2 = some sub →
          sub.is_public = !s.moderate_submissions) := by
  constructor
  · intro r s sub h
    rw [survey_submit_saved_submission r s sub h]
  · intro r s sub h
    rw [survey_submit_saved_submission r s sub
      (survey_detail_snd_eq_submit r s sub h)]

def reqW : Request :=
  { method := .post, user := some 7, hasSession := true, entered := false
    formsValid := true, xForwardedFor := none, remoteAddr := "9.9.9.9" }

def surW : Survey :=
  { is_open := true, require_login := false
    allow_multiple_submissions := true, moderate_submissions := true
    can_have_public_submissions := false, numQuestions := 2 }

def subW : Submission :=
  { is_public := false, ip_address := "9.9.9.9", user := some 7 }

/-- Witness for C1: a concrete valid POST to a moderated survey saves a
submission, and the theorem yields `is_public = false` for it. -/
theorem submission_public_iff_not_moderated_witness :
    surW.moderate_submissions = true ∧
    (survey_submit reqW surW).2 = some subW ∧
    subW.is_public = false :=
  ⟨rfl, rfl,
    (submission_public_iff_not_moderated.1 reqW surW subW rfl).trans
      (by decide)⟩

/-- C9: the IP stamped on a new submission comes from
`HTTP_X_FORWARDED_FOR` whenever that header is present and non-empty — the
last comma-separated element, stripped — independently of the transport-level
`REMOTE_ADDR`; only absent or empty headers fall back to `REMOTE_ADDR`. -/
theorem stored_ip_from_forwarded_header :
    (∀ (f ra : String), f ≠ "" →
        get_remote_ip (some f) ra = pyStrip ((pySplitComma f).getLastD "")) ∧
    (∀ (f ra ra' : String), f ≠ "" →
        get_remote_ip (some f) ra = get_remote_ip (some f) ra') ∧
    (∀ ra : String, get_remote_ip none ra = ra) ∧
    (∀ ra : String, get_remote_ip (some "") ra = ra) ∧
    (∀ (r : Request) (s : Survey) (sub : Submission),
        (survey_submit r s).2 = some sub →
          sub.ip_address = get_remote_ip r.xForwardedFor r.remoteAddr) := by
  have hip : ∀ (f ra : String), f ≠ "" →
      get_remote_ip (some f) ra = pyStrip ((pySplitComma f).getLastD "") := by
    intro f ra h
    simp [get_remote_ip, h]
  refine ⟨hip, ?_, fun ra => rfl, fun ra => rfl, ?_⟩
  · intro f ra ra' h
    rw [hip f ra h, hip f ra' h]
  · intro r s sub h
    rw [survey_submit_saved_submission r s sub h]

/-- Witness for C9: with a concrete two-hop header the stored IP is the
stripped last element and does not depend on `REMOTE_ADDR`. -/
theorem stored_ip_from_forwarded_header_witness :
    (" 1.2.3.4 , 10.0.0.1 " ≠ "") ∧
    get_remote_ip (some " 1.2.3.4 , 10.0.0.1 ") "8.8.8.8"
      = get_remote_ip (some " 1.2.3.4 , 10.0.0.1 ") "7.7.7.7" ∧
    get_remote_ip (some " 1.2.3.4 , 10.0.0.1 ") "8.8.8.8" = "10.0.0.1" :=
  ⟨by decide,
    stored_ip_from_forwarded_header.2.1 " 1.2.3.4 , 10.0.0.1 "
      "8.8.8.8" "7.7.7.7" (by decide),
    by decide⟩

def surC2 : Survey :=
  { is_open := true, require_login := false
    allow_multiple_submissions := false, moderate_submissions := false
    can_have_public_submissions := true, numQuestions := 1 }

def reqC2 : Request :=
  { method := .get, user := none, hasSession := true, entered := true
    formsValid := true, xForwardedFor := none, remoteAddr := "1.2.3.4" }

/-- C2 counterexample: a GET by a session that already entered a single-entry
survey (open, no login required, public results) is answered with a redirect
to the results page, not with the "already submitted" page — `survey_detail`
can never reach the `already_submitted.html` render, because
`_survey_submit`'s prior-entry guard sits behind `_can_show_form`, which the
prior entry already falsifies. -/
theorem already_submitted_page_not_shown_cex :
    user_too_many_entries reqC2 surC2 = true ∧
    (survey_detail reqC2 surC2).1 = .resultsRedirect false ∧
    (survey_detail reqC2 surC2).1 ≠ .alreadySubmitted := by
  decide

/-- C2 amended: a user or session that already entered a single-entry survey
is never shown the entry form — every response is either a redirect to the
results page or a render of the detail template with an empty forms tuple —
but it is not always the "already submitted" page (that render is unreachable
through `survey_detail`). -/
theorem prior_entry_never_shows_entry_form (r : Request) (s : Survey)
    (h : user_too_many_entries r s = true) :
    (survey_detail r s).1 = .resultsRedirect false ∨
    (survey_detail r s).1 = .showForm 0 := by
  have hcsf : can_show_form r s = false := by
    simp [can_show_form, h]
  simp only [survey_detail, hcsf, Bool.false_eq_true, if_false]
  split
  · exact Or.inl rfl
  · split
    · exact Or.inr rfl
    · split
      · exact Or.inl rfl
      · exact Or.inr rfl

/-- Witness for the amended C2 at the counterexample's input. -/
theorem prior_entry_never_shows_entry_form_witness :
    user_too_many_entries reqC2 surC2 = true ∧
    ((survey_detail reqC2 surC2).1 = .resultsRedirect false ∨
      (survey_detail reqC2 surC2).1 = .showForm 0) :=
  ⟨by decide, prior_entry_never_shows_entry_form reqC2 surC2 (by decide)⟩

/-- Modelled from the spec: the decision order exactly as the claim words it —
"a survey that is open and has public results short-circuits to a redirect to
results" — with every later step as in the code, for comparison with
`survey_detail`. -/
def survey_detail_claim_order (r : Request) (s : Survey) :
    Response × Option Submission :=
  if s.is_open && s.can_have_public_submissions then
    (.resultsRedirect false, none)
  else
    let need_login := s.is_open && s.require_login && !r.isAuthenticated
    if can_show_form r s then
      if r.method = .post then
        survey_submit r s
      else
        (.showForm (forms_for_survey s), none)
    else if need_login then
      (.showForm 0, none)
    else if s.can_have_public_submissions then
      (.resultsRedirect false, none)
    else
      (.showForm 0, none)

def surC3 : Survey :=
  { is_open := true, require_login := false
    allow_multiple_submissions := true, moderate_submissions := false
    can_have_public_submissions := true, numQuestions := 2 }

def reqC3 : Request :=
  { method := .get, user := none, hasSession := true, entered := false
    formsValid := true, xForwardedFor := none, remoteAddr := "1.1.1.1" }

/-- C3 counterexample: for an open survey with public results the code does
NOT short-circuit to the results redirect — it renders the entry form.  The
first predicate `survey_detail` evaluates is `not survey.is_open and
survey.can_have_public_submissions()`, i.e. closed-and-has-results, not the
claim's open-and-has-results. -/
theorem detail_first_check_not_open_and_results_cex :
    surC3.is_open = true ∧
    surC3.can_have_public_submissions = true ∧
    (survey_detail reqC3 surC3).1 = .showForm (forms_for_survey surC3) ∧
    (survey_detail reqC3 surC3).1 ≠ .resultsRedirect false ∧
    (survey_detail reqC3 surC3).1 ≠ .resultsRedirect true ∧
    survey_detail reqC3 surC3 ≠ survey_detail_claim_order reqC3 surC3 := by
  decide

/-- The decision table `survey_detail` implements, written flat: first a
CLOSED survey with public results redirects to results; otherwise the entry
form is shown (POSTs go to the submit handler) when the survey is open, the
login requirement is met, and the prior-entry lock is clear; otherwise an
open login-requiring survey renders the page with no forms for the anonymous
user; otherwise public results redirect; otherwise the closed private survey
renders with no forms. -/
def survey_detail_table (r : Request) (s : Survey) :
    Response × Option Submission :=
  if !s.is_open && s.can_have_public_submissions then
    (.resultsRedirect false, none)
  else if s.is_open && (r.isAuthenticated || !s.require_login)
      && !(!s.allow_multiple_submissions && r.entered) then
    if r.method = .post then
      survey_submit r s
    else
      (.showForm (forms_for_survey s), none)
  else if s.is_open && s.require_login && !r.isAuthenticated then
    (.showForm 0, none)
  else if s.can_have_public_submissions then
    (.resultsRedirect false, none)
  else
    (.showForm 0, none)

/-- C3 amended: `survey_detail` evaluates its predicates in a fixed order, but
the short-circuit is closed-and-has-public-results (the claim's first
predicate has the openness inverted); with that one correction the response
follows the decision table for every request. -/
theorem survey_detail_follows_table (r : Request) (s : Survey) :
    survey_detail r s = survey_detail_table r s := rfl

/-- Counting lemma: `count k l + |filter (fun x => !(x == k)) l| = |l|`. -/
lemma count_add_filter_ne_length {α : Type} [BEq α]
    (l : List α) (k : α) :
    l.count k + (l.filter (fun x => !(x == k))).length = l.length := by
  rw [← List.countP_eq_length_filter, List.count,
    List.length_eq_countP_add_countP (p := (· == k)) (l := l)]
  congr 1
  refine List.countP_congr ?_
  intro x _
  simp

/-- Summing `l.count k` over any duplicate-free list of keys covering `l`
gives `|l|`. -/
lemma sum_map_count_of_cover {α : Type} [BEq α] [LawfulBEq α] :
    ∀ (keys l : List α), keys.Nodup → (∀ x ∈ l, x ∈ keys) →
      (keys.map (fun k => l.count k)).sum = l.length := by
  intro keys
  induction keys with
  | nil =>
      intro l _ hcov
      cases l with
      | nil => rfl
      | cons a as => exact absurd (hcov a (by simp)) (by simp)
  | cons k ks ih =>
      intro l hnd hcov
      have hk : k ∉ ks := (List.nodup_cons.mp hnd).1
      have hnd' : ks.Nodup := (List.nodup_cons.mp hnd).2
      have hcongr : ∀ x ∈ ks,
          l.count x = (l.filter (fun y => !(y == k))).count x := by
        intro x hx
        have hxk : x ≠ k := fun he => hk (he ▸ hx)
        rw [List.count_filter (by simp [hxk])]
      have hcov' : ∀ x ∈ l.filter (fun y => !(y == k)), x ∈ ks := by
        intro x hx
        rcases List.mem_filter.mp hx with ⟨hxl, hxk⟩
        simp only [Bool.not_eq_eq_eq_not, Bool.not_true,
          beq_eq_false_iff_ne, ne_eq] at hxk
        rcases List.mem_cons.mp (hcov x hxl) with he | hm
        · exact absurd he hxk
        · exact hm
      calc ((k :: ks).map (fun j => l.count j)).sum
          = l.count k + (ks.map (fun j => l.count j)).sum := by simp
        _ = l.count k
            + (ks.map (fun j =>
                (l.filter (fun y => !(y == k))).count j)).sum := by
              rw [List.map_congr_left hcongr]
        _ = l.count k + (l.filter (fun y => !(y == k))).length := by
              rw [ih _ hnd' hcov']
        _ = l.length := count_add_filter_ne_length l k

/-- C4 amended: the per-distinct-value counts of `aggregate_results` sum to
the TOTAL number of `Answer` rows for the question — rows whose
`text_answer` is null form their own group (`Count("id")` counts every row),
so the sum exceeds the number of non-null answers whenever a null answer
exists. -/
theorem aggregate_counts_sum_to_answer_rows
    (answers : List (Option String)) :
    ((aggregate_counts answers).map Prod.snd).sum = answers.length := by
  unfold aggregate_counts
  rw [List.map_map]
  show (answers.dedup.map (fun k => answers.count k)).sum = answers.length
  exact sum_map_count_of_cover answers.dedup answers
    answers.nodup_dedup (fun x hx => List.mem_dedup.mpr hx)

/-- C4 counterexample: a question whose single answer row has a null
`text_answer` gets aggregate counts summing to 1, while the number of
non-null answers is 0. -/
theorem aggregate_counts_not_nonnull_sum_cex :
    ((aggregate_counts [(none : Option String)]).map Prod.snd).sum = 1 ∧
    nonNullAnswerCount [(none : Option String)] = 0 ∧
    ((aggregate_counts [(none : Option String)]).map Prod.snd).sum
      ≠ nonNullAnswerCount [(none : Option String)] := by
  decide

def subsC5 : List JsonSubmission :=
  ["0", "1", "2", "3", "4", "5", "6", "7", "8", "9", "10"].map
    (fun i => { answers := [("idx", i)] })

/-- C5: `survey_results_json` slices `qs[offset:limit]` instead of
`qs[offset:offset+limit]`.  With 11 public submissions, `offset=10` and
`limit=5`, the advertised offset/limit pagination would return the one
submission at index 10, but the code's slice `qs[10:5]` is empty (the full
`count` is still reported).  The embedding even reads the parameters
charitably as integers; the Python code would pass the raw strings to the
slice. -/
theorem results_json_pagination_bug :
    (survey_results_json [("offset", "10"), ("limit", "5")] subsC5).count
      = 11 ∧
    (survey_results_json [("offset", "10"), ("limit", "5")] subsC5).page
      = some [] ∧
    (subsC5.drop 10).take 5 = [{ answers := [("idx", "10")] }] :=
  ⟨rfl, rfl, rfl⟩

/-- C6: `_filter_submissions` never filters anything — its body reads the
name `survey`, which is neither of its parameters and is not bound at module
level in `views.py`, so every call raises `NameError`, with or without
filter parameters in the request. -/
theorem filter_submissions_raises_nameerror :
    ("survey" ∉ viewsModuleNames) ∧
    ("survey" ∉ filterSubmissionsParams) ∧
    filter_submissions_views [("city", "NY")]
        [{ answers := [("city", "NY")] }]
      = .error "NameError: name 'survey' is not defined" ∧
    filter_submissions_views [] []
      = .error "NameError: name 'survey' is not defined" :=
  ⟨by decide, by decide, rfl, rfl⟩

def stC7 : ReportState :=
  { surveyExists := true, canHavePublicSubmissions := true
    reportSlugs := ["weekly"], publicSubs := [] }

/-- C7: no request naming a missing entity receives a 404 from
`survey_report` — no request receives anything from it.  The transcribed
source violates the indented-suite rule exactly at lines 304-305, so
`views.py` fails to import (`IndentationError`) and every request to the
view errors: in particular an unknown survey slug and an unknown report slug
both get a server error, never `notFound`. -/
theorem survey_report_import_fails :
    firstIndentationViolation surveyReportStmtLines = some (304, 305) ∧
    pythonIndentationOk surveyReportStmtLines = false ∧
    (∀ (st : ReportState) (params : List (String × String))
        (reportSlug : String) (page : Option Nat),
        survey_report st params reportSlug page
          = .serverError
              "IndentationError: expected an indented block (views.py line 305)") ∧
    survey_report
        { surveyExists := false, canHavePublicSubmissions := true
          reportSlugs := [], publicSubs := [] } [] "nosuch" none
      ≠ .notFound ∧
    ("nosuch" ∉ stC7.reportSlugs ∧
      survey_report stC7 [] "nosuch" none ≠ .notFound) :=
  ⟨by decide, by decide,
    fun st params reportSlug page => rfl,
    by decide, by decide, by decide⟩

/-- An ASCII digit is not an ASCII letter. -/
lemma digit_not_letter (c : Char) (h : isAsciiDigit c = true) :
    isAsciiLetter c = false := by
  simp only [isAsciiDigit, Bool.and_eq_true, decide_eq_true_eq] at h
  simp only [isAsciiLetter, Bool.or_eq_false_iff, Bool.and_eq_false_iff,
    decide_eq_false_iff_not, not_le]
  omega

/-- Does the string start with `[0-9]`?  (Claim-side predicate.) -/
def startsWithDigit (s : String) : Bool :=
  match s.data with
  | [] => false
  | c :: _ => isAsciiDigit c

/-- Does the string contain a character outside `[a-zA-Z0-9_]`?
(Claim-side predicate.) -/
def containsCharOutsideClass (s : String) : Bool :=
  s.data.any (fun c => !isFieldnameChar c)

/-- C8 counterexample: the input `" question_1"` contains a character outside
`[a-zA-Z0-9_]` (the leading space), which the claim says is rejected, yet
`clean_fieldname` accepts it: the value is stripped before the pattern is
applied. -/
theorem clean_fieldname_accepts_untrimmed_cex :
    containsCharOutsideClass " question_1" = true ∧
    clean_fieldname " question_1" = .ok "question_1" :=
  ⟨by decide, rfl⟩

/-- C8 amended: `clean_fieldname` first strips surrounding whitespace; it
rejects every input whose STRIPPED form starts with a digit or contains a
character outside `[a-zA-Z0-9_]`, accepts `"question_1"`, and every accepted
fieldname is the stripped input and matches `[a-zA-Z][a-zA-Z0-9_]*`. -/
theorem clean_fieldname_correct :
    (∀ s : String, startsWithDigit (pyStrip s) = true →
        clean_fieldname s = .error "ValidationError") ∧
    (∀ s : String, containsCharOutsideClass (pyStrip s) = true →
        clean_fieldname s = .error "ValidationError") ∧
    clean_fieldname "question_1" = .ok "question_1" ∧
    (∀ s f : String, clean_fieldname s = .ok f →
        matchesFieldnamePattern f = true ∧ f = pyStrip s) := by
  refine ⟨?_, ?_, rfl, ?_⟩
  · intro s h
    have hp : matchesFieldnamePattern (pyStrip s) = false := by
      unfold startsWithDigit at h
      unfold matchesFieldnamePattern
      cases hd : (pyStrip s).data with
      | nil => rfl
      | cons c cs =>
          rw [hd] at h
          simp [digit_not_letter c h]
    simp [clean_fieldname, hp]
  · intro s h
    have hp : matchesFieldnamePattern (pyStrip s) = false := by
      unfold containsCharOutsideClass at h
      unfold matchesFieldnamePattern
      cases hd : (pyStrip s).data with
      | nil => rfl
      | cons c cs =>
          rw [hd] at h
          simp only [List.any_cons, Bool.or_eq_true] at h
          rcases h with h | h
          · have hc : isAsciiLetter c = false := by
              simp only [Bool.not_eq_true'] at h
              simp only [isFieldnameChar, Bool.or_eq_false_iff] at h
              exact h.1.1
            simp [hc]
          · have hcs : cs.all isFieldnameChar = false := by
              rcases List.any_eq_true.mp h with ⟨x, hx, hxc⟩
              simp only [Bool.not_eq_true'] at hxc
              exact List.all_eq_false.mpr ⟨x, hx, by simp [hxc]⟩
            simp [hcs]
    simp [clean_fieldname, hp]
  · intro s f h
    simp only [clean_fieldname] at h
    split at h
    · next hm =>
        rcases Except.ok.inj h with rfl
        exact ⟨hm, rfl⟩
    · exact absurd h (by simp)

/-- Witness for the amended C8: a digit-leading input and an input with an
interior illegal character are both rejected. -/
theorem clean_fieldname_correct_witness :
    startsWithDigit (pyStrip "1abc") = true ∧
    clean_fieldname "1abc" = .error "ValidationError" ∧
    containsCharOutsideClass (pyStrip "a-b") = true ∧
    clean_fieldname "a-b" = .error "ValidationError" :=
  ⟨by decide, clean_fieldname_correct.1 "1abc" (by decide),
    by decide, clean_fieldname_correct.2.1 "a-b" (by decide)⟩

/-- The five successive `pop` calls leave exactly the non-reserved
parameters. -/
lemma results_json_vars (params : List (String × String))
    (subs : List JsonSubmission) :
    (survey_results_json params subs).appliedFilters
      = ((((params.filter (fun kv => kv.1 ≠ "limit")).filter
            (fun kv => kv.1 ≠ "offset")).filter
            (fun kv => kv.1 ≠ "order")).filter
            (fun kv => kv.1 ≠ "countonly")).filter
            (fun kv => kv.1 ≠ "callback") := by
  simp only [survey_results_json, dictPop]
  split <;> rfl

/-- Reads off `filtered`, `count` and the branch on the empty filter set, read off the
definition. -/
lemma results_json_filtered (params : List (String × String))
    (subs : List JsonSubmission) :
    (survey_results_json params subs).filtered
      = (if (survey_results_json params subs).appliedFilters ≠ [] then
          subs.filter (fun sub => submissionMatches sub.answers
            (survey_results_json params subs).appliedFilters)
        else subs) ∧
    (survey_results_json params subs).count
      = (survey_results_json params subs).filtered.length := by
  rw [results_json_vars]
  simp only [survey_results_json, dictPop]
  split <;> exact ⟨rfl, rfl⟩

/-- C10: `survey_results_json` passes every request parameter except the five
reserved names straight through as an equality filter on the public
submissions; nothing restricts the names to the survey's declared filterable
fields (the function never consults them), so external clients filter by
arbitrary field names. -/
theorem results_json_filters_passthrough
    (params : List (String × String)) (subs : List JsonSubmission) :
    (∀ kv : String × String,
        kv ∈ (survey_results_json params subs).appliedFilters ↔
          kv ∈ params ∧ kv.1 ∉ reservedJsonParams) ∧
    (survey_results_json params subs).filtered
      = subs.filter (fun sub => submissionMatches sub.answers
          (survey_results_json params subs).appliedFilters) ∧
    (survey_results_json params subs).count
      = (survey_results_json params subs).filtered.length := by
  refine ⟨?_, ?_, (results_json_filtered params subs).2⟩
  · intro kv
    rw [results_json_vars]
    simp only [List.mem_filter, decide_eq_true_eq, reservedJsonParams,
      List.mem_cons, List.mem_singleton, List.not_mem_nil]
    constructor
    · rintro ⟨⟨⟨⟨⟨hmem, h1⟩, h2⟩, h3⟩, h4⟩, h5⟩
      refine ⟨hmem, ?_⟩
      intro hr
      rcases hr with h | h | h | h | h | h
      · exact h1 h
      · exact h2 h
      · exact h3 h
      · exact h4 h
      · exact h5 h
      · exact h
    · rintro ⟨hmem, hr⟩
      refine ⟨⟨⟨⟨⟨hmem, ?_⟩, ?_⟩, ?_⟩, ?_⟩, ?_⟩ <;>
        intro h <;> exact hr (by simp [h])
  · rcases results_json_filtered params subs with ⟨hf, _⟩
    rw [hf]
    split
    · rfl
    · next h =>
        have hnil : (survey_results_json params subs).appliedFilters = [] := by
          by_contra hc
          exact h hc
        rw [hnil]
        have : (fun sub : JsonSubmission =>
            submissionMatches sub.answers []) = fun _ => true := by
          funext sub
          rfl
        rw [this, List.filter_true]

end Crowdsourcing
